import Mathlib

/-!
Verification of the rick INTERCAL interpreter/compiler (fyyaz/rick) against its
natural-language specification.  The Rust sources embedded here are
src/eval.rs (interpreter state machine, arrays, jump stack) and src/opt.rs
(optimizer passes).  Machine integers (u16/u32) are modelled as Nat with
explicit reduction mod 2^16 / 2^32 where the Rust arithmetic can wrap;
fallible Rust code (Result<_, err::Error>) is modelled with Except; a Rust
runtime panic (vector index out of bounds, arithmetic underflow with debug
assertions) is modelled by a distinct failure value `Fail.crash`, which is in
particular never equal to any IE-coded error.
-/

namespace Rick

/-- Runtime error codes from err.rs (only the codes the interpreter code under
verification can raise are listed). -/
inductive ErrCode where
  | IE123   -- PROGRAM HAS DISAPPEARED INTO THE BLACK LAGOON (NEXT stack > 80)
  | IE129   -- PROGRAM HAS GOTTEN LOST (DoNext to unknown label)
  | IE139   -- I WASN'T PLANNING TO GO THERE ANYWAY
  | IE241   -- VARIABLES MAY NOT BE STORED IN WEST HYPERSPACE
  | IE275   -- DON'T BYTE OFF MORE THAN YOU CAN CHEW (16-bit overflow on assign)
  | IE436   -- THROW STICK BEFORE RETRIEVING (empty snapshot stack)
  | IE621   -- ERROR TYPE 621 ENCOUNTERED (RESUME 0)
  | IE632   -- THE NEXT STACK RUPTURED (RESUME past stack bottom)
  | IE663   -- PROGRAM FELL OFF THE EDGE
  | IEother -- stands for any error code not pinned down by the spec
deriving DecidableEq, Repr

/-- Failure of a Rust evaluation step: either an IE-coded interpreter error
(Result::Err in the source), or a Rust runtime panic (out-of-bounds vector
index, or integer underflow under debug assertions).  The two are distinct:
a panic aborts the process and is never reported as an IE error. -/
inductive Fail where
  | err (c : ErrCode)
  | crash
deriving DecidableEq, Repr

/-- Result of dispatching one statement (enum StmtRes in eval.rs). -/
inductive StmtRes where
  | Next
  | Jump (n : Nat)
  | Back (n : Nat)
  | End
deriving DecidableEq, Repr

/-- eval.rs lines 336-346, Eval::pop_jumps: pop n values from the jump stack
and return the last (deepest) popped one.  The Rust Vec has its top at the
end; we model it as a List with the top at the end.  The function mutates
self.jumps, so we return the new stack alongside the result; on an error the
stack is returned unchanged, as in the source (the errors fire before any
mutation).  truncate-to-(len-(n-1)) followed by pop is rendered literally;
the pop().unwrap() cannot fail on the path where it runs, and the unreachable
None branch is rendered as a crash. -/
def pop_jumps (jumps : List Nat) (n : Nat) : List Nat × Except Fail Nat :=
  if n = 0 then
    (jumps, .error (.err .IE621))
  else if jumps.length < n then
    (jumps, .error (.err .IE632))
  else
    let newlen := jumps.length - (n - 1)
    let truncated := jumps.take newlen
    match truncated.getLast? with
    | some v => (truncated.dropLast, .ok v)
    | none => (truncated, .error .crash)

/-- eval.rs lines 183-187, the Resume arm of Eval::eval_stmt: n is the value
of the RESUME operand (the result of eval_expr cast with as_u32); the arm pops
n entries and goes Back to the popped line. -/
def evalResume (jumps : List Nat) (n : Nat) : List Nat × Except Fail StmtRes :=
  let r := pop_jumps jumps n
  (r.1, r.2.map fun v => .Back v)

/-- eval.rs lines 188-192, the Forget arm of Eval::eval_stmt: n is the value
of the FORGET operand; the arm pops n entries with the same (strict)
pop_jumps helper as Resume, discards the popped value and yields Next. -/
def evalForget (jumps : List Nat) (n : Nat) : List Nat × Except Fail StmtRes :=
  let r := pop_jumps jumps n
  (r.1, r.2.map fun _ => .Next)

/-- eval.rs lines 166-178, the DoNext arm of Eval::eval_stmt: look up the
label in the program's label table; on a hit, fail with IE123 if the jump
stack already holds 80 or more entries, else Jump to the looked-up statement
index; a missing label fails with IE129.  The BTreeMap is modelled as an
association list. -/
def evalDoNext (labels : List (Nat × Nat)) (jumps : List Nat) (l : Nat) :
    Except Fail StmtRes :=
  match labels.lookup l with
  | some i => if 80 ≤ jumps.length then .error (.err .IE123) else .ok (.Jump i)
  | none => .error (.err .IE129)

/-! ## Values and arrays (eval.rs) -/

/-- ast::Val (the runtime value type referenced by eval.rs): a 16-bit or
32-bit unsigned value, modelled as a Nat kept below the width bound. -/
inductive Val where
  | I16 (n : Nat)
  | I32 (n : Nat)
deriving DecidableEq, Repr

/-- Modelled from the spec: Val::as_u16 is defined in the ast module version
that is not under src/; per spec section 4.4 a value is coerced to the
destination width and a wider value signals the 16-bit-overflow error IE275
(spec section 7). -/
def Val.as_u16 : Val → Except Fail Nat
  | .I16 n => .ok n
  | .I32 n => if 65535 < n then .error (.err .IE275) else .ok n

/-- Modelled from the spec: Val::as_u32 widens without failure (all arithmetic
is modular on the declared width, and u16 always fits in u32). -/
def Val.as_u32 : Val → Nat
  | .I16 n => n
  | .I32 n => n

/-- The Array<T> struct of eval.rs lines 28-41: dimension vector and flat cell
vector. -/
structure RArray where
  dims : List Nat
  data : List Nat
deriving DecidableEq, Repr

/-- The Var<T> struct of eval.rs lines 43-53: current value plus LIFO snapshot
stack.  The Vec stack has its top at the end of the list. -/
structure Bind (α : Type) where
  val : α
  stack : List α
deriving DecidableEq, Repr

/-- The u16-wrapping of sub - 1 computed by eval.rs lines 451/473
(ix += (sub - 1) * prev_dim).  For sub ≥ 1 this is plain subtraction; for
sub = 0 the Rust u16 subtraction underflows: a release build wraps to 65535
(modelled here) and a debug build panics outright.  Both builds diverge from
an IE241 error at sub = 0, which is what the claims about this code decide. -/
def u16sub1 (s : Nat) : Nat := (s + 65535) % 65536

/-- The flat-index loop of eval.rs lines 445-453 (and identically 467-475):
ix starts at 0, prev_dim starts at 1; for each (sub, dim) pair of the zip of
the subscripts with the dimension vector, fail with IE241 if sub > dim, else
ix += (sub - 1) * prev_dim in u16 arithmetic and prev_dim becomes dim (the
single previous dimension, not a running product). -/
def ixLoop : List Nat → List Nat → Nat → Nat → Except Fail Nat
  | s :: ss, d :: ds, ix, prev =>
      if d < s then .error (.err .IE241)
      else ixLoop ss ds ((ix + u16sub1 s * prev) % 65536) d
  | _, _, ix, _ => .ok ix

/-- The subscript coercion subs.iter().map(as_u16).collect() of eval.rs
lines 440/462. -/
def valsAsU16 : List Val → Except Fail (List Nat)
  | [] => .ok []
  | v :: vs => do
      let n ← v.as_u16
      let ns ← valsAsU16 vs
      .ok (n :: ns)

/-- eval.rs lines 438-457, Eval::array_assign: coerce the subscripts to u16,
index the variable vector (a Rust panic if n is out of range), check the
subscript count against the rank (IE241 on mismatch), run the flat-index
loop, and store into the cell vector (vent.val.1[ix] = val, a Rust panic if
ix is out of range). -/
def array_assign (map : List (Bind RArray)) (n : Nat) (subs : List Val)
    (val : Nat) : Except Fail (List (Bind RArray)) := do
  let subs ← valsAsU16 subs
  match map[n]? with
  | none => .error .crash
  | some vent =>
      if subs.length ≠ vent.val.dims.length then .error (.err .IE241)
      else do
        let ix ← ixLoop subs vent.val.dims 0 1
        if ix < vent.val.data.length then
          .ok (map.set n
            { vent with val := { vent.val with data := vent.val.data.set ix val } })
        else .error .crash

/-- eval.rs lines 460-477, Eval::array_lookup: identical shape to
array_assign, reading the cell instead of writing it
(vent.val.1[ix], a Rust panic if ix is out of range). -/
def array_lookup (map : List (Bind RArray)) (n : Nat) (subs : List Val) :
    Except Fail Nat := do
  let subs ← valsAsU16 subs
  match map[n]? with
  | none => .error .crash
  | some vent =>
      if subs.length ≠ vent.val.dims.length then .error (.err .IE241)
      else do
        let ix ← ixLoop subs vent.val.dims 0 1
        match vent.val.data[ix]? with
        | some v => .ok v
        | none => .error .crash

/-- The flat-index formula of the specification (sections 4.6):
the sum over i of (sub_i − 1) · (product of the dimensions before i),
written in Horner form.  This definition follows the spec sentence, not the
source, and exists to be compared against the source's ixLoop. -/
def specFlatIndex : List Nat → List Nat → Nat
  | s :: ss, d :: ds => (s - 1) + d * specFlatIndex ss ds
  | _, _ => 0

/-! ## Arithmetic primitives (util.rs, not under src/) -/

/-- Modelled from the spec: the mingle interleave of util.rs is not under
src/; per spec section 4.4 the bits of v go to the odd (higher) positions and
the bits of w to the even positions of each bit pair of the 32-bit result.
The fuel argument walks the 16 bit pairs. -/
def mingleGo : Nat → Nat → Nat → Nat
  | 0, _, _ => 0
  | f + 1, v, w => (w % 2) + 2 * (v % 2) + 4 * mingleGo f (v / 2) (w / 2)

/-- Modelled from the spec: mingle demands both operands fit in 16 bits (the
error code of the overflow case is not pinned down by the spec). -/
def mingle (v w : Nat) : Except Fail Nat :=
  if 65535 < v ∨ 65535 < w then .error (.err .IEother)
  else .ok (mingleGo 16 v w)

/-- Modelled from the spec: the select bit-gather of util.rs is not under
src/; per spec section 4.4, for each set bit of w from the LSB up, the
corresponding bit of v is gathered into the next free position of the result.
The fuel argument walks the 32 bits. -/
def selectGo : Nat → Nat → Nat → Nat
  | 0, _, _ => 0
  | f + 1, v, w =>
      if w % 2 = 1 then (v % 2) + 2 * selectGo f (v / 2) (w / 2)
      else selectGo f (v / 2) (w / 2)

/-- Modelled from the spec: select over 32-bit operands. -/
def select (v w : Nat) : Nat := selectGo 32 v w

/-- Modelled from the spec: rotate a 16-bit word right by one. -/
def rotr16 (v : Nat) : Nat := (v >>> 1) ||| ((v % 2) <<< 15)

/-- Modelled from the spec: rotate a 32-bit word right by one. -/
def rotr32 (v : Nat) : Nat := (v >>> 1) ||| ((v % 2) <<< 31)

/-- Modelled from the spec: the unary AND reduction (rotate right by one,
then bitwise and with the original), 16-bit. -/
def and_16 (v : Nat) : Nat := Nat.land (rotr16 v) v

/-- Modelled from the spec: unary AND reduction, 32-bit. -/
def and_32 (v : Nat) : Nat := Nat.land (rotr32 v) v

/-- Modelled from the spec: unary OR reduction, 16-bit. -/
def or_16 (v : Nat) : Nat := Nat.lor (rotr16 v) v

/-- Modelled from the spec: unary OR reduction, 32-bit. -/
def or_32 (v : Nat) : Nat := Nat.lor (rotr32 v) v

/-- Modelled from the spec: unary XOR reduction, 16-bit. -/
def xor_16 (v : Nat) : Nat := Nat.xor (rotr16 v) v

/-- Modelled from the spec: unary XOR reduction, 32-bit. -/
def xor_32 (v : Nat) : Nat := Nat.xor (rotr32 v) v

/-! ## Expressions, variables and the interpreter variable state (eval.rs) -/

mutual

/-- ast::Expr as used by eval.rs: literals, variable reads and the INTERCAL
operators. -/
inductive Expr where
  | Num (v : Val)
  | EVar (v : Var)
  | Mingle (a b : Expr)
  | Select (a b : Expr)
  | And (a : Expr)
  | Or (a : Expr)
  | Xor (a : Expr)

/-- ast::Var as used by eval.rs: the four variable kinds, arrays carrying
subscript expressions. -/
inductive Var where
  | I16 (n : Nat)
  | I32 (n : Nat)
  | A16 (n : Nat) (subs : List Expr)
  | A32 (n : Nat) (subs : List Expr)

end

/-- ast::Var::unique: the (kind-tag, index) key identifying a variable in the
IGNORE set. -/
def Var.unique : Var → Nat × Nat
  | .I16 n => (0, n)
  | .I32 n => (1, n)
  | .A16 n _ => (2, n)
  | .A32 n _ => (3, n)

/-- The variable-store part of struct Eval (eval.rs lines 55-66): the four
per-kind vectors of Bind entries, the IGNORE set (HashSet of unique keys,
modelled as a list with membership), and the jump stack. -/
structure EState where
  spot : List (Bind Nat)
  twospot : List (Bind Nat)
  tail : List (Bind RArray)
  hybrid : List (Bind RArray)
  ignored : List (Nat × Nat)
  jumps : List Nat
deriving DecidableEq, Repr

mutual

/-- eval.rs lines 247-283, Eval::eval_expr. -/
def eval_expr (st : EState) : Expr → Except Fail Val
  | .Num v => .ok v
  | .EVar v => lookup st v
  | .Mingle a b => do
      let x ← eval_expr st a
      let y ← eval_expr st b
      (mingle x.as_u32 y.as_u32).map Val.I32
  | .Select a b => do
      let x ← eval_expr st a
      let y ← eval_expr st b
      .ok (.I32 (select x.as_u32 y.as_u32))
  | .And a => do
      let x ← eval_expr st a
      match x with
      | .I16 v => .ok (.I16 (and_16 v))
      | .I32 v => .ok (.I32 (and_32 v))
  | .Or a => do
      let x ← eval_expr st a
      match x with
      | .I16 v => .ok (.I16 (or_16 v))
      | .I32 v => .ok (.I32 (or_32 v))
  | .Xor a => do
      let x ← eval_expr st a
      match x with
      | .I16 v => .ok (.I16 (xor_16 v))
      | .I32 v => .ok (.I32 (xor_32 v))

/-- eval.rs lines 349-366, Eval::lookup (out-of-range vector indexing is a
Rust panic). -/
def lookup (st : EState) : Var → Except Fail Val
  | .I16 n =>
      match st.spot[n]? with
      | some vent => .ok (.I16 vent.val)
      | none => .error .crash
  | .I32 n =>
      match st.twospot[n]? with
      | some vent => .ok (.I32 vent.val)
      | none => .error .crash
  | .A16 n subs => do
      let s ← eval_exprlist st subs
      (array_lookup st.tail n s).map Val.I16
  | .A32 n subs => do
      let s ← eval_exprlist st subs
      (array_lookup st.hybrid n s).map Val.I32

/-- eval.rs lines 285-287, Eval::eval_exprlist: left-to-right evaluation,
first error wins. -/
def eval_exprlist (st : EState) : List Expr → Except Fail (List Val)
  | [] => .ok []
  | e :: es => do
      let v ← eval_expr st e
      let vs ← eval_exprlist st es
      .ok (v :: vs)

end

/-- eval.rs lines 290-316, Eval::assign: a no-op returning Ok if the target's
unique key is in the IGNORE set (checked before anything else, in particular
before the subscript expressions of an array target are evaluated); otherwise
coerce and store, with array targets delegated to array_assign. -/
def assign (st : EState) (var : Var) (val : Val) : Except Fail EState :=
  if var.unique ∈ st.ignored then .ok st
  else
    match var with
    | .I16 n =>
        match st.spot[n]? with
        | some vent => do
            let v ← val.as_u16
            .ok { st with spot := st.spot.set n { vent with val := v } }
        | none => .error .crash
    | .I32 n =>
        match st.twospot[n]? with
        | some vent =>
            .ok { st with twospot := st.twospot.set n { vent with val := val.as_u32 } }
        | none => .error .crash
    | .A16 n subs => do
        let s ← eval_exprlist st subs
        let v ← val.as_u16
        let tl ← array_assign st.tail n s v
        .ok { st with tail := tl }
    | .A32 n subs => do
        let s ← eval_exprlist st subs
        let hy ← array_assign st.hybrid n s val.as_u32
        .ok { st with hybrid := hy }

/-- eval.rs lines 369-389, Eval::stash: push the current value onto the
variable's snapshot stack (the Vec top is the end of the list).  The IGNORE
set is not consulted. -/
def stash (st : EState) (var : Var) : Except Fail EState :=
  match var with
  | .I16 n =>
      match st.spot[n]? with
      | some vent =>
          .ok { st with spot := st.spot.set n { vent with stack := vent.stack ++ [vent.val] } }
      | none => .error .crash
  | .I32 n =>
      match st.twospot[n]? with
      | some vent =>
          .ok { st with twospot := st.twospot.set n { vent with stack := vent.stack ++ [vent.val] } }
      | none => .error .crash
  | .A16 n _ =>
      match st.tail[n]? with
      | some vent =>
          .ok { st with tail := st.tail.set n { vent with stack := vent.stack ++ [vent.val] } }
      | none => .error .crash
  | .A32 n _ =>
      match st.hybrid[n]? with
      | some vent =>
          .ok { st with hybrid := st.hybrid.set n { vent with stack := vent.stack ++ [vent.val] } }
      | none => .error .crash

/-- eval.rs lines 480-489, Eval::generic_retrieve: pop the snapshot stack
(IE436 when empty) and overwrite the current value with the popped entry. -/
def generic_retrieve {α : Type} (map : List (Bind α)) (n : Nat) :
    Except Fail (List (Bind α)) :=
  match map[n]? with
  | none => .error .crash
  | some vent =>
      match vent.stack.getLast? with
      | none => .error (.err .IE436)
      | some v => .ok (map.set n { val := v, stack := vent.stack.dropLast })

/-- eval.rs lines 392-399, Eval::retrieve: dispatch generic_retrieve on the
variable kind.  The IGNORE set is not consulted. -/
def retrieve (st : EState) (var : Var) : Except Fail EState :=
  match var with
  | .I16 n => (generic_retrieve st.spot n).map fun l => { st with spot := l }
  | .I32 n => (generic_retrieve st.twospot n).map fun l => { st with twospot := l }
  | .A16 n _ => (generic_retrieve st.tail n).map fun l => { st with tail := l }
  | .A32 n _ => (generic_retrieve st.hybrid n).map fun l => { st with hybrid := l }

/-! ## The interpreter main loop (eval.rs, Eval::eval, lines 98-148)

One iteration of the loop is embedded as a step function.  The pieces of the
iteration that are external to the control logic under scrutiny are
parameters: `draw` is the boolean outcome of check_chance (a PRNG sample) and
`res` is the successful result of Eval::eval_stmt for the statement at the
current counter (an eval_stmt error aborts the whole loop and is not part of
the claims about the loop's control transfers). -/

/-- A program as seen by the main loop: the per-statement label
(stmt.props.label, 0 meaning unlabelled) and the COME-FROM binding map from
labels to statement indices (program.comefroms, a map modelled as an
association list). -/
structure LProgram where
  stmtLabels : List Nat
  comefroms : List (Nat × Nat)
deriving DecidableEq, Repr

/-- The mutable loop state: program counter and jump stack. -/
structure LoopState where
  pctr : Nat
  jumps : List Nat
deriving DecidableEq, Repr

/-- Outcome of one loop iteration: continue running at a new state, terminate
normally (break, from StmtRes::End), or abort with an error. -/
inductive StepOut where
  | run (s : LoopState)
  | halt
  | fail (c : ErrCode)
deriving DecidableEq, Repr

/-- eval.rs lines 133-145: the fall-through COME-FROM check.  Read the label
of the statement at the current counter; if it is non-zero, bound in the
COME-FROM map, and the COME-FROM statement itself is not abstained, control
transfers there; otherwise the counter advances by one. -/
def comefromNext (p : LProgram) (abst : List Bool) (pctr : Nat) : Nat :=
  let lbl := p.stmtLabels.getD pctr 0
  if 0 < lbl then
    match p.comefroms.lookup lbl with
    | some next => if abst.getD next false then pctr + 1 else next
    | none => pctr + 1
  else pctr + 1

/-- eval.rs lines 102-146: one iteration of the main loop.  Falling off the
end fails with IE663; an abstained statement or a failed chance draw skips
execution and goes straight to the COME-FROM check; a Jump pushes the current
counter onto the jump stack and continues at the target WITHOUT the COME-FROM
check; a Back moves the counter and then runs the COME-FROM check at the new
counter; Next runs the COME-FROM check at the current counter; End breaks. -/
def evalStep (p : LProgram) (abst : List Bool) (draw : Bool) (res : StmtRes)
    (s : LoopState) : StepOut :=
  if p.stmtLabels.length ≤ s.pctr then .fail .IE663
  else if ¬ abst.getD s.pctr false ∧ draw then
    match res with
    | .Jump n => .run ⟨n, s.jumps ++ [s.pctr]⟩
    | .Back n => .run ⟨comefromNext p abst n, s.jumps⟩
    | .End => .halt
    | .Next => .run ⟨comefromNext p abst s.pctr, s.jumps⟩
  else .run ⟨comefromNext p abst s.pctr, s.jumps⟩

/-! ## The optimizer (opt.rs) -/

/-- The count-ones loop of u32::count_ones as used by opt.rs, fuel-based over
the 32 bits. -/
def popcountGo : Nat → Nat → Nat
  | 0, _ => 0
  | f + 1, n => n % 2 + popcountGo f (n / 2)

/-- u32::count_ones for a value below 2^32. -/
def count_ones (i : Nat) : Nat := popcountGo 32 i

/-- u32::count_zeros for a value below 2^32. -/
def count_zeros (i : Nat) : Nat := 32 - count_ones i

/-- The trailing-zeros loop of u32::trailing_zeros, fuel-based; on the value
0 all 32 bits of fuel are consumed, giving 32 as in Rust. -/
def tzGo : Nat → Nat → Nat
  | 0, _ => 0
  | f + 1, n => if n % 2 = 1 then 0 else 1 + tzGo f (n / 2)

/-- u32::trailing_zeros for a value below 2^32. -/
def trailing_zeros (i : Nat) : Nat := tzGo 32 i

/-- The used-bit count (fuel-based binary length) of a value below 2^32. -/
def bitLenGo : Nat → Nat → Nat
  | 0, _ => 0
  | f + 1, n => if n = 0 then 0 else 1 + bitLenGo f (n / 2)

/-- u32::leading_zeros for a value below 2^32. -/
def leading_zeros (i : Nat) : Nat := 32 - bitLenGo 32 i

/-- The guard of the shift-and-mask arm of Optimizer::opt_expr (opt.rs line
163): the literal's set bits are contiguous exactly when every zero bit is a
leading or a trailing one. -/
def contiguousBits (i : Nat) : Bool :=
  count_zeros i = leading_zeros i + trailing_zeros i

/-- The expression fragment the Select-lowering arm produces: Leaf stands for
the arbitrary operand expression x that opt.rs clones into the result, Num
for Expr::Num literals, and the remaining constructors for the Select /
RsAnd / RsRshift nodes involved. -/
inductive OExpr where
  | Num (n : Nat)
  | Leaf
  | Select (a b : OExpr)
  | RsAnd (a b : OExpr)
  | RsRshift (a b : OExpr)
deriving DecidableEq, Repr

/-- opt.rs lines 163-172: the lowering of Select(vx, Num i) for a literal i
with contiguous set bits.  No trailing zeros: RsAnd(vx, i).  No leading
zeros: RsRshift(vx, trailing_zeros i).  Otherwise RsAnd of the shift with the
literal 1 << i.count_ones() - 1, which by Rust operator precedence (shift
binds less tightly than subtraction) is 1 <<< (count_ones i - 1). -/
def lowerSelect (vx : OExpr) (i : Nat) : OExpr :=
  if trailing_zeros i = 0 then .RsAnd vx (.Num i)
  else if leading_zeros i = 0 then .RsRshift vx (.Num (trailing_zeros i))
  else .RsAnd (.RsRshift vx (.Num (trailing_zeros i)))
        (.Num (1 <<< (count_ones i - 1)))

/-- Evaluation of the expression fragment at a value of the operand x.
Select denotes the INTERCAL select; the lowered operators denote the
conventional operations the optimizer targets (RsAnd is bitwise and,
RsRshift is right shift — modelled from the spec, which calls them native
shifts/masks; their evaluation lives outside src/). -/
def oeval (xval : Nat) : OExpr → Nat
  | .Num n => n
  | .Leaf => xval
  | .Select a b => select (oeval xval a) (oeval xval b)
  | .RsAnd a b => Nat.land (oeval xval a) (oeval xval b)
  | .RsRshift a b => (oeval xval a) >>> (oeval xval b)

/-! ## The constant-output pass (opt.rs, Optimizer::opt_const_output,
lines 237-284) -/

/-- The statement-type tags (ast::Abstain) as far as this pass constructs
them: the sentinel Label tag, and one constructor standing for every gerund
tag (the pass never inspects tags, so the gerunds need not be told apart
here). -/
inductive ATag where
  | Label (n : Nat)
  | Gerund
deriving DecidableEq, Repr

/-- Statement bodies as far as the constant-output pass distinguishes them:
WriteIn and DoNext are tested for in the feasibility scan, Print and GiveUp
are constructed for the replacement program, and every other body is treated
uniformly (the match arm for anything else is a no-op). -/
inductive OBody where
  | Print (s : String)
  | GiveUp
  | WriteIn
  | DoNext (n : Nat)
  | OtherBody
deriving DecidableEq, Repr

/-- A statement as far as this pass reads or builds it: body plus the label
and chance properties. -/
structure OStmt where
  body : OBody
  label : Nat
  chance : Nat
deriving DecidableEq, Repr

/-- ast::Stmt::new_with: a statement with default properties (label 0,
chance 100). -/
def OStmt.new_with (b : OBody) : OStmt := { body := b, label := 0, chance := 100 }

/-- A program as far as this pass reads or builds it: statements, label
table, the statement-type tag sequence, and the added_syslib flag. -/
structure OProgram where
  stmts : List OStmt
  labels : List (Nat × Nat)
  stmt_types : List ATag
  added_syslib : Bool
deriving DecidableEq, Repr

/-- opt.rs lines 238-264: the feasibility scan.  Walking the statements with
the label of the previous statement at hand: a chance below 100 is fatal
unless the program added the syslib and the previous label was 1901; a
WriteIn is fatal; a DoNext to 1900 or 1910 is fatal unless the previous label
was 1911. -/
def constOutputPossibleGo (addedSyslib : Bool) : List OStmt → Nat → Bool
  | [], _ => true
  | stmt :: rest, prev_lbl =>
      if stmt.chance < 100 ∧ ¬ (addedSyslib ∧ prev_lbl = 1901) then false
      else
        match stmt.body with
        | .WriteIn => false
        | .DoNext n =>
            if (n = 1900 ∨ n = 1910) ∧ ¬ (prev_lbl = 1911) then false
            else constOutputPossibleGo addedSyslib rest stmt.label
        | _ => constOutputPossibleGo addedSyslib rest stmt.label

/-- opt.rs lines 276-283: the replacement program built when the pass
succeeds, with the captured output s: a Print statement followed by GiveUp,
an empty label table, the tag vector vec![Abstain::Label(0)], and
added_syslib reset. -/
def constOutputReplacement (s : String) : OProgram :=
  { stmts := [OStmt.new_with (.Print s), OStmt.new_with .GiveUp],
    labels := [],
    stmt_types := [.Label 0],
    added_syslib := false }

/-- opt.rs lines 237-284, Optimizer::opt_const_output.  The in-memory
interpreter run (opt.rs line 271) is a parameter: evalResult is some s when
the run succeeded producing output s, and none when it failed, in which case
the program is left unchanged. -/
def opt_const_output (p : OProgram) (evalResult : Option String) : OProgram :=
  if ¬ constOutputPossibleGo p.added_syslib p.stmts 0 then p
  else
    match evalResult with
    | none => p
    | some s => constOutputReplacement s

/-! ## Theorems -/

deriving instance DecidableEq for Except

/-- Helper: on the success path (0 < n ≤ length), pop_jumps removes exactly n
entries from the top (the end) of the stack and returns the deepest of the
removed entries, the one at index length - n. -/
theorem pop_jumps_success (j : List Nat) (n : Nat) (h0 : 0 < n)
    (h1 : n ≤ j.length) :
    pop_jumps j n = (j.take (j.length - n), Except.ok (j.getD (j.length - n) 0)) := by
  have hne : ¬ n = 0 := by omega
  have hnlt : ¬ j.length < n := Nat.not_lt.mpr h1
  have hlen : (j.take (j.length - (n - 1))).length = j.length - (n - 1) := by
    rw [List.length_take]; omega
  have hidx : j.length - n < j.length := by omega
  have hlast : (j.take (j.length - (n - 1))).getLast? = some (j.getD (j.length - n) 0) := by
    rw [List.getLast?_eq_getElem?, hlen]
    have he : j.length - (n - 1) - 1 = j.length - n := by omega
    rw [he, List.getElem?_take_of_lt (by omega), List.getElem?_eq_getElem hidx,
        List.getD_eq_getElem j 0 hidx]
  have hdrop : (j.take (j.length - (n - 1))).dropLast = j.take (j.length - n) := by
    rw [List.dropLast_eq_take, hlen, List.take_take]
    congr 1
    omega
  simp only [pop_jumps, if_neg hne, if_neg hnlt, hlast, hdrop]

/-- C5: for Resume(e) with operand value n: n = 0 fails with IE621; n larger
than the jump-stack length fails with IE632, the stack unchanged in both
failure cases; otherwise exactly n entries are removed (the stack shrinks to
its first length - n entries) and control goes Back to the deepest popped
entry, the one n-th from the top. -/
theorem C5_resume_semantics (j : List Nat) (n : Nat) :
    (n = 0 → evalResume j n = (j, Except.error (.err .IE621))) ∧
    (j.length < n → evalResume j n = (j, Except.error (.err .IE632))) ∧
    (0 < n → n ≤ j.length →
      evalResume j n
        = (j.take (j.length - n), Except.ok (.Back (j.getD (j.length - n) 0)))) := by
  refine ⟨?_, ?_, ?_⟩
  · intro h
    subst h
    simp [evalResume, pop_jumps, Except.map]
  · intro h
    have hne : ¬ n = 0 := by omega
    simp [evalResume, pop_jumps, if_neg hne, if_pos h, Except.map]
  · intro h0 h1
    rw [evalResume, pop_jumps_success j n h0 h1]
    rfl

/-- C5 witness: RESUME 2 on the stack [5, 6, 7] pops the two entries 7 and 6
and goes Back to 6, leaving [5]. -/
theorem C5_resume_semantics_witness :
    evalResume [5, 6, 7] 2 = ([5], Except.ok (.Back 6)) := by
  have h := (C5_resume_semantics [5, 6, 7] 2).2.2 (by decide) (by decide)
  rw [h]
  rfl

/-- C4: the claim that Forget is non-strict fails on this code: Forget calls
the same strict pop_jumps as Resume, so a FORGET that pops past the stack
bottom raises IE632 instead of clearing the stack, and FORGET #0 raises
IE621 rather than doing nothing. -/
theorem C4_forget_strict_on_underflow :
    evalForget [] 1 = ([], Except.error (.err .IE632)) ∧
    evalForget [3] 2 = ([3], Except.error (.err .IE632)) ∧
    evalForget [3] 0 = ([3], Except.error (.err .IE621)) ∧
    evalForget [3, 4] 1 = ([3], Except.ok .Next) := by
  decide

/-- C7 counterexample: with a full jump stack (80 entries) and a label absent
from the label table, DoNext fails with IE129, not IE123 — the label lookup
precedes the stack-depth check, contrary to the claim. -/
theorem C7_donext_depth_after_lookup_cex :
    evalDoNext [] (List.replicate 80 0) 5 = Except.error (.err .IE129) ∧
    evalDoNext [] (List.replicate 80 0) 5 ≠ Except.error (.err .IE123) := by
  decide

/-- C7 amended: for DoNext(L), the label lookup comes first: when L is bound
to statement i, a jump-stack depth of 80 or more fails with IE123 and
otherwise the result is Jump(i); when L is absent the statement fails with
IE129 regardless of the stack depth. -/
theorem C7_donext_lookup_then_depth (labels : List (Nat × Nat))
    (jumps : List Nat) (l : Nat) :
    (∀ i, labels.lookup l = some i →
      (80 ≤ jumps.length → evalDoNext labels jumps l = Except.error (.err .IE123)) ∧
      (jumps.length < 80 → evalDoNext labels jumps l = Except.ok (.Jump i))) ∧
    (labels.lookup l = none → evalDoNext labels jumps l = Except.error (.err .IE129)) := by
  refine ⟨fun i hi => ⟨fun hd => ?_, fun hd => ?_⟩, fun hn => ?_⟩
  · simp [evalDoNext, hi, if_pos hd]
  · simp [evalDoNext, hi, Nat.not_le.mpr hd]
  · simp [evalDoNext, hn]

/-- C7 amended witness: a bound label with a full stack does fail with
IE123. -/
theorem C7_donext_lookup_then_depth_witness :
    evalDoNext [(5, 3)] (List.replicate 80 0) 5 = Except.error (.err .IE123) :=
  ((C7_donext_lookup_then_depth [(5, 3)] (List.replicate 80 0) 5).1 3
    (by decide)).1 (by decide)

/-- C1 failing input: over the array with dimensions [2, 3, 4] whose cell j
holds the value j, the subscripts [1, 1, 2] read flat cell 3 (the code's
stride for the third subscript is the single previous dimension 3), while
the spec formula places them at flat index 6; the distinct subscripts
[2, 2, 1] (spec index 3) read the very same cell 3, so the code's indexing
is not even injective for rank 3. -/
theorem C1_third_subscript_stride_bug :
    array_lookup [⟨⟨[2, 3, 4], List.range 24⟩, []⟩] 0 [.I16 1, .I16 1, .I16 2]
      = Except.ok 3 ∧
    specFlatIndex [1, 1, 2] [2, 3, 4] = 6 ∧
    array_lookup [⟨⟨[2, 3, 4], List.range 24⟩, []⟩] 0 [.I16 2, .I16 2, .I16 1]
      = Except.ok 3 ∧
    specFlatIndex [2, 2, 1] [2, 3, 4] = 3 := by
  decide

/-- C6 failing input: on the one-dimensional array with dimension vector [2],
the subscript 0 slips past the only bound check (sub > dim) and the u16
computation of sub - 1 underflows, ending in a Rust panic (out-of-bounds cell
index 65535 in a release build, underflow abort in a debug build) instead of
the claimed IE241; the arity-mismatch and too-large-subscript cases do raise
IE241. -/
theorem C6_subscript_zero_escapes_IE241 :
    array_lookup [⟨⟨[2], [7, 8]⟩, []⟩] 0 [.I16 0] = Except.error .crash ∧
    array_assign [⟨⟨[2], [7, 8]⟩, []⟩] 0 [.I16 0] 1 = Except.error .crash ∧
    array_lookup [⟨⟨[2], [7, 8]⟩, []⟩] 0 [.I16 3] = Except.error (.err .IE241) ∧
    array_lookup [⟨⟨[2], [7, 8]⟩, []⟩] 0 [.I16 1, .I16 1]
      = Except.error (.err .IE241) ∧
    array_assign [⟨⟨[2], [7, 8]⟩, []⟩] 0 [] 1 = Except.error (.err .IE241) := by
  decide

/-- C2 failing input: N = 6 has contiguous set bits with both leading and
trailing zeros, so the third lowering case fires; by Rust precedence the mask
literal 1 << count_ones - 1 is 2^(popcount-1) = 2, not 2^popcount - 1 = 3,
and at x = 2 the lowered expression (x >> 1) & 2 evaluates to 0 while
select(2, 6) = 1. -/
theorem C2_select_lowering_mask_bug :
    contiguousBits 6 = true ∧
    lowerSelect .Leaf 6 = .RsAnd (.RsRshift .Leaf (.Num 1)) (.Num 2) ∧
    oeval 2 (.Select .Leaf (.Num 6)) = 1 ∧
    oeval 2 (lowerSelect .Leaf 6) = 0 ∧
    (1 <<< count_ones 6) - 1 = 3 := by
  decide

/-- C8 failing input: the constant-output reduction applied to a well-formed
single-statement program (one statement, one tag) emits the two statements
Print and GiveUp but only the single tag vec![Abstain::Label(0)], so the
emitted program's tag sequence is not parallel to its statement sequence. -/
theorem C8_const_output_tag_count_mismatch :
    (opt_const_output ⟨[OStmt.new_with .GiveUp], [], [.Label 0], false⟩
        (some "x")).stmts.length = 2 ∧
    (opt_const_output ⟨[OStmt.new_with .GiveUp], [], [.Label 0], false⟩
        (some "x")).stmt_types.length = 1 := by
  exact ⟨rfl, rfl⟩

/-- C3: in one iteration of the main loop at a valid program counter:
a Jump(i) outcome pushes the counter onto the jump stack and continues at i,
with no COME-FROM consultation (the resulting state is the same for every
COME-FROM map); a Next outcome, an abstention skip or a failed chance draw
fall through to the COME-FROM check at the current counter; a Back(i)
outcome falls through to the COME-FROM check at i; and the COME-FROM check
deflects to the bound COME-FROM statement exactly when that statement is not
abstained, advancing by one when it is. -/
theorem C3_jump_skips_comefrom_check (p : LProgram) (abst : List Bool)
    (s : LoopState) (h : s.pctr < p.stmtLabels.length) :
    (∀ i, abst.getD s.pctr false = false →
      evalStep p abst true (.Jump i) s = .run ⟨i, s.jumps ++ [s.pctr]⟩) ∧
    (∀ res draw,
      (res = .Next ∨ abst.getD s.pctr false = true ∨ draw = false) →
      evalStep p abst draw res s = .run ⟨comefromNext p abst s.pctr, s.jumps⟩) ∧
    (∀ i, abst.getD s.pctr false = false →
      evalStep p abst true (.Back i) s = .run ⟨comefromNext p abst i, s.jumps⟩) ∧
    (∀ q next, 0 < p.stmtLabels.getD q 0 →
      p.comefroms.lookup (p.stmtLabels.getD q 0) = some next →
      (abst.getD next false = false → comefromNext p abst q = next) ∧
      (abst.getD next false = true → comefromNext p abst q = q + 1)) := by
  have hlt : ¬ p.stmtLabels.length ≤ s.pctr := Nat.not_le.mpr h
  refine ⟨?_, ?_, ?_, ?_⟩
  · intro i ha
    rw [List.getD_eq_getElem?_getD] at ha
    simp [evalStep, hlt, ha]
  · intro res draw hcase
    rcases hcase with hres | ha | hd
    · subst hres
      by_cases ha : abst.getD s.pctr false = true
      · rw [List.getD_eq_getElem?_getD] at ha
        simp [evalStep, hlt, ha]
      · simp only [Bool.not_eq_true] at ha
        rw [List.getD_eq_getElem?_getD] at ha
        cases draw <;> simp [evalStep, hlt, ha]
    · rw [List.getD_eq_getElem?_getD] at ha
      simp [evalStep, hlt, ha]
    · subst hd
      simp [evalStep, hlt]
  · intro i ha
    rw [List.getD_eq_getElem?_getD] at ha
    simp [evalStep, hlt, ha]
  · intro q next hlbl hcf
    rw [List.getD_eq_getElem?_getD] at hlbl hcf
    refine ⟨fun ha => ?_, fun ha => ?_⟩ <;>
      rw [List.getD_eq_getElem?_getD] at ha <;>
      simp [comefromNext, hlbl, hcf, ha]

/-- C3 witness: statement 1 carries label 7, a COME FROM bound to label 7
sits at statement 0 and is not abstained; a Next outcome at counter 1
deflects to 0 while leaving the jump stack alone. -/
theorem C3_jump_skips_comefrom_check_witness :
    evalStep ⟨[0, 7, 5], [(7, 0)]⟩ [false, false, false] true .Next ⟨1, [2]⟩
      = .run ⟨0, [2]⟩ := by
  have h := (C3_jump_skips_comefrom_check ⟨[0, 7, 5], [(7, 0)]⟩
    [false, false, false] ⟨1, [2]⟩ (by decide)).2.1 .Next true (Or.inl rfl)
  rw [h]
  decide

/-- C9: an assignment whose target variable is IGNOREd is a complete no-op:
it succeeds with the interpreter state unchanged, for scalar and array
targets alike, whatever the subscript expressions and the assigned value
(the IGNORE check in Eval::assign precedes the subscript evaluation). -/
theorem C9_ignored_assign_noop (st : EState) (var : Var) (val : Val)
    (h : var.unique ∈ st.ignored) : assign st var val = Except.ok st := by
  unfold assign
  rw [if_pos h]

/-- C9 witness: the tail array ,0 is IGNOREd; assigning to it through the
out-of-range subscript 0 (which would end in a Rust panic if evaluated)
succeeds and leaves the state untouched. -/
theorem C9_ignored_assign_noop_witness :
    assign ⟨[], [], [⟨⟨[2], [0, 0]⟩, []⟩], [], [(2, 0)], []⟩
        (.A16 0 [.Num (.I16 0)]) (.I16 1)
      = Except.ok ⟨[], [], [⟨⟨[2], [0, 0]⟩, []⟩], [], [(2, 0)], []⟩ :=
  C9_ignored_assign_noop _ _ _ (by decide)

/-- C10: STASH and RETRIEVE never consult the IGNORE set: both commute with
an arbitrary replacement of the ignored set (so their behaviour on an
IGNOREd variable equals their behaviour on a remembered one), and RETRIEVE
on a spot variable pops the top of the snapshot stack into the current
value unconditionally. -/
theorem C10_stash_retrieve_ignore_blind :
    (∀ (st : EState) (I : List (Nat × Nat)) (var : Var),
      stash { st with ignored := I } var
        = (stash st var).map fun s => { s with ignored := I }) ∧
    (∀ (st : EState) (I : List (Nat × Nat)) (var : Var),
      retrieve { st with ignored := I } var
        = (retrieve st var).map fun s => { s with ignored := I }) ∧
    (∀ (st : EState) (n : Nat) (vent : Bind Nat) (v : Nat) (rest : List Nat),
      st.spot[n]? = some vent → vent.stack = rest ++ [v] →
      retrieve st (.I16 n) = Except.ok { st with spot := st.spot.set n ⟨v, rest⟩ }) := by
  refine ⟨?_, ?_, ?_⟩
  · intro st I var
    cases var with
    | I16 n => cases h : st.spot[n]? <;> simp [stash, h, Except.map]
    | I32 n => cases h : st.twospot[n]? <;> simp [stash, h, Except.map]
    | A16 n subs => cases h : st.tail[n]? <;> simp [stash, h, Except.map]
    | A32 n subs => cases h : st.hybrid[n]? <;> simp [stash, h, Except.map]
  · intro st I var
    cases var with
    | I16 n =>
        cases h : st.spot[n]? with
        | none => simp [retrieve, generic_retrieve, h, Except.map]
        | some vent =>
            cases hl : vent.stack.getLast? <;>
              simp [retrieve, generic_retrieve, h, hl, Except.map]
    | I32 n =>
        cases h : st.twospot[n]? with
        | none => simp [retrieve, generic_retrieve, h, Except.map]
        | some vent =>
            cases hl : vent.stack.getLast? <;>
              simp [retrieve, generic_retrieve, h, hl, Except.map]
    | A16 n subs =>
        cases h : st.tail[n]? with
        | none => simp [retrieve, generic_retrieve, h, Except.map]
        | some vent =>
            cases hl : vent.stack.getLast? <;>
              simp [retrieve, generic_retrieve, h, hl, Except.map]
    | A32 n subs =>
        cases h : st.hybrid[n]? with
        | none => simp [retrieve, generic_retrieve, h, Except.map]
        | some vent =>
            cases hl : vent.stack.getLast? <;>
              simp [retrieve, generic_retrieve, h, hl, Except.map]
  · intro st n vent v rest h1 h2
    simp [retrieve, generic_retrieve, h1, h2, List.getLast?_concat,
      List.dropLast_concat, Except.map]

/-- C10 witness: the spot variable .0 is in the IGNORE set, yet RETRIEVE
pops its snapshot stack [4, 5] and overwrites the current value 9 with the
popped 5. -/
theorem C10_stash_retrieve_ignore_blind_witness :
    retrieve ⟨[⟨9, [4, 5]⟩], [], [], [], [(0, 0)], []⟩ (.I16 0)
      = Except.ok ⟨[⟨5, [4]⟩], [], [], [], [(0, 0)], []⟩ := by
  have h := C10_stash_retrieve_ignore_blind.2.2
    ⟨[⟨9, [4, 5]⟩], [], [], [], [(0, 0)], []⟩ 0 ⟨9, [4, 5]⟩ 5 [4]
    (by decide) (by decide)
  rw [h]
  rfl


end Rick
